import Mathlib

/-!
Verification development for the drillbuilder answer-grading and
spaced-repetition core.

Shallow embedding of:
  - drillbuilder/srs.py                  (review scheduler)
  - drillbuilder/models.py               (per-question-type validation)
  - drillbuilder/routes/attempts.py      (submit-question grading step)

Python dynamic values are modelled by the inductive `PyVal`; code that can
raise is embedded as `Except PyExc`.  Python floats are modelled as exact
rationals (`ℚ`); Python `round` is round-half-to-even, as implemented by
CPython for these inputs.  Dates are modelled as integer day numbers with
`today` an explicit parameter (the source reads `date.today()` at entry).
-/

namespace DrillBuilder

/-! ## Python value model -/

/-- A JSON-decodable Python value as it reaches `validate_answer`.
Dictionaries are modelled with string keys (the grading code only ever
looks up string keys, so values under non-string keys are unobservable).
Floats do not occur in any property considered here and are omitted. -/
inductive PyVal where
  | none : PyVal
  | bool (b : Bool) : PyVal
  | int (n : Int) : PyVal
  | str (s : String) : PyVal
  | list (xs : List PyVal) : PyVal
  | dict (kvs : List (String × PyVal)) : PyVal

/-- Python type name, used in exception messages. -/
def pyTypeName : PyVal → String
  | .none => "NoneType"
  | .bool _ => "bool"
  | .int _ => "int"
  | .str _ => "str"
  | .list _ => "list"
  | .dict _ => "dict"

/-- Exception kinds raised by the embedded grading code. -/
inductive PyExcKind where
  | attributeError : PyExcKind
  | typeError : PyExcKind
  | valueError : PyExcKind
deriving DecidableEq, Repr

/-- A raised Python exception: kind plus the message `str(e)` would show. -/
structure PyExc where
  kind : PyExcKind
  msg : String
deriving DecidableEq, Repr

mutual

/-- Python `==` on the values above.  Booleans compare equal to the
integers 0/1, as in Python (`True == 1`).  Dictionary equality is not
exercised by any embedded operation (dicts are unhashable and never
reach a set), so plain key-value list equality is used there. -/
def pyEq : PyVal → PyVal → Bool
  | .none, .none => true
  | .bool a, .bool b => a == b
  | .bool a, .int b => (if a then (1 : Int) else 0) == b
  | .int a, .bool b => a == (if b then (1 : Int) else 0)
  | .int a, .int b => a == b
  | .str a, .str b => a == b
  | .list xs, .list ys => pyEqList xs ys
  | .dict xs, .dict ys => pyEqKVs xs ys
  | _, _ => false

/-- Elementwise Python `==` on lists. -/
def pyEqList : List PyVal → List PyVal → Bool
  | [], [] => true
  | x :: xs, y :: ys => pyEq x y && pyEqList xs ys
  | _, _ => false

/-- Python `==` on dict entry lists. -/
def pyEqKVs : List (String × PyVal) → List (String × PyVal) → Bool
  | [], [] => true
  | x :: xs, y :: ys => x.1 == y.1 && pyEq x.2 y.2 && pyEqKVs xs ys
  | _, _ => false

end

/-- Python `set()` rejects unhashable elements (lists and dicts). -/
def pyUnhashable : PyVal → Bool
  | .list _ => true
  | .dict _ => true
  | _ => false

/-- Construction of a Python `set` by repeated insertion: keep each
element not `==`-equal to one already seen. -/
def pyDedupAux (seen : List PyVal) : List PyVal → List PyVal
  | [] => []
  | x :: xs =>
    if seen.any (fun y => pyEq y x) then pyDedupAux seen xs
    else x :: pyDedupAux (x :: seen) xs

/-- The distinct elements of a list under Python `==`, first occurrences
kept, as in `set(xs)`. -/
def pyDedup (xs : List PyVal) : List PyVal :=
  pyDedupAux [] xs

/-- Python set equality between two element lists: mutual containment
under `==` (independent of duplicates and order, like `set(a) == set(b)`). -/
def pySetEq (a b : List PyVal) : Bool :=
  a.all (fun x => b.any (fun y => pyEq x y)) && b.all (fun y => a.any (fun x => pyEq y x))

/-- Lookup of a string key in an embedded dict, with default: `kvs.get(k, d)`. -/
def pyDictGetD (kvs : List (String × PyVal)) (k : String) (d : PyVal) : PyVal :=
  match kvs.find? (fun p => p.1 == k) with
  | some p => p.2
  | Option.none => d

/-! ## String helpers (Python `str` methods used by the grading code) -/

/-- Strip the characters of `chars` from both ends of `s`
(Python `s.strip(chars)`). -/
def pyStripChars (chars : List Char) (s : String) : String :=
  ⟨((s.data.dropWhile (fun c => chars.contains c)).reverse.dropWhile
      (fun c => chars.contains c)).reverse⟩

/-- The whitespace characters stripped by Python `str.strip()`. -/
def pyWhitespace : List Char :=
  [' ', '\t', '\n', '\r', Char.ofNat 11, Char.ofNat 12]

/-- Python `s.strip()` (no argument): strip whitespace from both ends. -/
def pyStripWs (s : String) : String :=
  pyStripChars pyWhitespace s

/-- Python `s.lower()` (ASCII case, sufficient for every string here). -/
def lowerStr (s : String) : String :=
  ⟨s.data.map Char.toLower⟩

/-- `string.punctuation` from the Python standard library. -/
def punctuationChars : List Char :=
  ['!', Char.ofNat 34, '#', '$', '%', '&', Char.ofNat 39, '(', ')', '*', '+',
   ',', '-', '.', '/', ':', ';', '<', '=', '>', '?', '@', '[', Char.ofNat 92,
   ']', Char.ofNat 94, '_', Char.ofNat 96, Char.ofNat 123, '|', Char.ofNat 125,
   '~']

/-- Python `int(s)` on a string: optional surrounding whitespace, optional
sign, at least one decimal digit; anything else raises ValueError.
(Digit-group underscores and non-ASCII digits are not modelled; no
property considered here involves them.) -/
def pyParseIntStr (s : String) : Option Int :=
  let t := pyStripWs s
  let signDigits : Int × List Char :=
    match t.data with
    | c :: rest =>
      if c = '-' then (-1, rest) else if c = '+' then (1, rest) else (1, t.data)
    | [] => (1, [])
  if signDigits.2 = [] then Option.none
  else if signDigits.2.all Char.isDigit then
    some (signDigits.1 *
      (signDigits.2.foldl (fun acc c => acc * 10 + (c.toNat - '0'.toNat)) 0 : Nat))
  else Option.none

/-- Python `int(v)` on a dynamic value: ints pass through, bools become
0/1, strings are parsed (ValueError on failure), anything else raises
TypeError. -/
def pyToInt : PyVal → Except PyExc Int
  | .int n => .ok n
  | .bool b => .ok (if b then 1 else 0)
  | .str s =>
    match pyParseIntStr s with
    | some n => .ok n
    | Option.none => .error ⟨.valueError, "invalid literal for int with base 10: " ++ s⟩
  | v => .error ⟨.typeError, "int argument must be a string or a number, not " ++ pyTypeName v⟩

/-! ## Review scheduler (drillbuilder/srs.py) -/

/-- A `UserItem` mastery record as mutated by the scheduler
(`models.py`: `next_review_date`, `ease_factor`, `interval_days`,
`success_streak`; identity and foreign keys are irrelevant to grading). -/
structure UserItem where
  next_review_date : Option Int
  ease_factor : ℚ
  interval_days : Int
  success_streak : Int
deriving DecidableEq, Repr

/-- Python `round` on a rational: nearest integer, ties to even
(CPython round-half-to-even). -/
def pyRoundHalfEven (q : ℚ) : Int :=
  let f : Int := ⌊q⌋
  let r : ℚ := q - f
  if r < 1 / 2 then f
  else if 1 / 2 < r then f + 1
  else if f % 2 = 0 then f else f + 1

/-- `srs.calculate_new_interval`: 1 for the first success, 6 for the
second, afterwards `max(1, int(round(previous_interval * ease_factor)))`. -/
def calculate_new_interval (success_streak : Int) (ease_factor : ℚ)
    (previous_interval : Int) : Int :=
  if success_streak ≤ 1 then 1
  else if success_streak = 2 then 6
  else max 1 (pyRoundHalfEven (previous_interval * ease_factor))

/-- `srs.update_user_item_on_result`.  On success the previous interval is
passed as `item.interval_days or 1`, i.e. a zero (falsy) stored interval is
replaced by 1 before the multiplication. -/
def update_user_item_on_result (today : Int) (item : UserItem)
    (was_correct : Bool) : UserItem :=
  if was_correct then
    let streak := item.success_streak + 1
    let interval := calculate_new_interval streak item.ease_factor
      (if item.interval_days = 0 then 1 else item.interval_days)
    { item with
        success_streak := streak
        interval_days := interval
        next_review_date := some (today + interval) }
  else
    { item with
        success_streak := 0
        interval_days := 1
        next_review_date := some (today + 1)
        ease_factor := max (13 / 10) (item.ease_factor - 1 / 10) }

/-- Modelled from the spec wording of claim C1: the advance transition with
the new interval computed from the record's previous interval as stored
(`round(previous_interval * ease)` floored to minimum 1), with no
falsy-to-1 replacement. -/
def specAdvance (today : Int) (item : UserItem) (was_correct : Bool) : UserItem :=
  if was_correct then
    let streak := item.success_streak + 1
    let interval :=
      if streak ≤ 1 then 1
      else if streak = 2 then 6
      else max 1 (pyRoundHalfEven (item.interval_days * item.ease_factor))
    { item with
        success_streak := streak
        interval_days := interval
        next_review_date := some (today + interval) }
  else
    { item with
        success_streak := 0
        interval_days := 1
        next_review_date := some (today + 1)
        ease_factor := max (13 / 10) (item.ease_factor - 1 / 10) }

/-- The claim C1 transition amended at the one point the code differs:
when the stored interval is 0 (falsy), the multiplication uses 1 as the
previous interval. -/
def specAdvanceAmended (today : Int) (item : UserItem) (was_correct : Bool) :
    UserItem :=
  if was_correct then
    let streak := item.success_streak + 1
    let interval :=
      if streak ≤ 1 then 1
      else if streak = 2 then 6
      else max 1 (pyRoundHalfEven
        ((if item.interval_days = 0 then 1 else item.interval_days) * item.ease_factor))
    { item with
        success_streak := streak
        interval_days := interval
        next_review_date := some (today + interval) }
  else
    { item with
        success_streak := 0
        interval_days := 1
        next_review_date := some (today + 1)
        ease_factor := max (13 / 10) (item.ease_factor - 1 / 10) }

/-! ## Cloze blank validation (models.py: ClozeBlank) -/

/-- Three-way result of `ClozeBlank.validate_answer`: the strings
`correct` / `typo` / `incorrect` of the source, i.e. the spec's
EXACT / TYPO / MISMATCH. -/
inductive BlankRes where
  | correct : BlankRes
  | typo : BlankRes
  | incorrect : BlankRes
deriving DecidableEq, Repr

/-- A cloze blank.  `alternate_answers` is stored in the database as a
JSON string and decoded with `json.loads` (decode failures are swallowed
and behave like no alternates); it is modelled here as the decoded list,
with `Option.none` covering both an absent value and a failed decode. -/
structure ClozeBlank where
  position : Int
  correct_answer : Option String
  alternate_answers : Option (List String)
deriving DecidableEq, Repr

/-- Python truthiness of `x or None` on an optional string: an empty
string is falsy, so `correct_answer or ...` yields `None` for both an
absent and an empty stored answer (the legacy `word` fallback is `None`
in the current schema). -/
def pyOrNone : Option String → Option String
  | some s => if s = "" then Option.none else some s
  | Option.none => Option.none

/-- The decoded alternate list actually iterated: `if alternates:` makes
an empty list behave like none, which iterating the empty list models. -/
def altList : Option (List String) → List String
  | some l => l
  | Option.none => []

/-- `ClozeBlank._normalize_answer`: strip leading/trailing punctuation
and space (`text.strip(string.punctuation + ' ')` — note: only space,
not tabs or newlines), then lowercase. -/
def normalizeAnswer (text : String) : String :=
  lowerStr (pyStripChars (punctuationChars ++ [' ']) text)

/-- The inner loop of the dynamic program in `_is_typo`: extend
`current_row` (whose last entry so far is `lastVal`) across the
characters of `s2`, consuming `previous_row` so that its head is
`previous_row[j]` and the next element `previous_row[j+1]`. -/
def levInner (c1 : Char) : List Char → List Nat → Nat → List Nat
  | [], _, _ => []
  | c2 :: rest2, prevRow, lastVal =>
    let insertions := (prevRow.drop 1).headD 0 + 1
    let deletions := lastVal + 1
    let substitutions := prevRow.headD 0 + (if c1 = c2 then 0 else 1)
    let v := min insertions (min deletions substitutions)
    v :: levInner c1 rest2 (prevRow.drop 1) v

/-- The outer loop of the dynamic program: one row per character of
`s1`, starting row `i+1` as in the source's `current_row = [i + 1]`, and
finally `previous_row[-1]`. -/
def levRows (s2 : List Char) : List Char → List Nat → Nat → Nat
  | [], prevRow, _ => prevRow.getLastD 0
  | c1 :: rest1, prevRow, i =>
    levRows s2 rest1 ((i + 1) :: levInner c1 s2 prevRow (i + 1)) (i + 1)

/-- The body of `levenshtein_distance` after the swap: early return
`len(s1)` when `s2` is empty, otherwise the row dynamic program seeded
with `previous_row = range(len(s2) + 1)`. -/
def levCore (s1 s2 : List Char) : Nat :=
  if s2.length = 0 then s1.length
  else levRows s2 s1 (List.range (s2.length + 1)) 0

/-- `levenshtein_distance(s1, s2)` from `_is_typo`, including the initial
swap that makes the first argument the longer one. -/
def levenshtein_distance (s1 s2 : String) : Nat :=
  if s1.length < s2.length then levCore s2.data s1.data else levCore s1.data s2.data

/-- `ClozeBlank._is_typo`: lowercase and whitespace-strip both raw
strings (no punctuation stripping here), return False on equality, else
typo iff distance 1, or distance 2 with the longer string over 5 chars. -/
def is_typo (user_answer correct_answer : String) : Bool :=
  let ua := pyStripWs (lowerStr user_answer)
  let ca := pyStripWs (lowerStr correct_answer)
  if ua = ca then false
  else
    let distance := levenshtein_distance ua ca
    let max_length := max ua.length ca.length
    distance == 1 || (distance == 2 && decide (5 < max_length))

/-- `ClozeBlank.validate_answer(user_answer, case_sensitive)`.  The
`case_sensitive` parameter is accepted but never read by the source body;
the embedding keeps the argument, equally unused. -/
def blankValidate (blank : ClozeBlank) (user_answer : String)
    (case_sensitive : Bool) : BlankRes :=
  match pyOrNone blank.correct_answer with
  | Option.none => .incorrect
  | some correct =>
    let user_normalized := normalizeAnswer user_answer
    if user_normalized = "" then .incorrect
    else
      let correct_normalized := normalizeAnswer correct
      if user_normalized = correct_normalized then .correct
      else
        let alternates := altList blank.alternate_answers
        if alternates.any (fun alt => user_normalized = normalizeAnswer alt) then
          .correct
        else if is_typo user_answer correct then .typo
        else if alternates.any (fun alt => is_typo user_answer alt) then .typo
        else .incorrect

/-- The spec's Lexical Similarity Checker
`classify(submitted, canonical)`: cloze-blank validation against a single
canonical answer with no alternates. -/
def classify (submitted canonical : String) : BlankRes :=
  blankValidate ⟨0, some canonical, Option.none⟩ submitted false

/-! ## Cloze question validation (models.py: ClozeQuestion) -/

/-- One entry of the `details` map returned by
`ClozeQuestion.validate_answer`: `result`, the (stripped) submitted
answer, and the blank's canonical answer. -/
structure DetailEntry where
  result : BlankRes
  user_answer : String
  correct_answer : Option String
deriving DecidableEq, Repr

/-- Stable insertion of a blank into a position-sorted list (insert
before the first strictly greater position). -/
def insertByPos (b : ClozeBlank) : List ClozeBlank → List ClozeBlank
  | [] => [b]
  | x :: xs =>
    if x.position < b.position then x :: insertByPos b xs else b :: x :: xs

/-- `sorted(self.answer_components, key=lambda x: x.position)`: a stable
sort by position. -/
def sortByPos : List ClozeBlank → List ClozeBlank
  | [] => []
  | x :: xs => insertByPos x (sortByPos xs)

/-- One iteration's read of the response:
`user_response.get(str(idx), '')` — AttributeError unless the response
is a dict — followed by `.strip()` — AttributeError unless the value is
a string. -/
def clozeReadAnswer (resp : PyVal) (idx : Nat) : Except PyExc String :=
  match resp with
  | .dict kvs =>
    match pyDictGetD kvs (toString idx) (.str "") with
    | .str s => .ok (pyStripWs s)
    | v => .error ⟨.attributeError, pyTypeName v ++ " object has no attribute strip"⟩
  | v => .error ⟨.attributeError, pyTypeName v ++ " object has no attribute get"⟩

/-- The loop of `ClozeQuestion.validate_answer` over the sorted blanks:
accumulates `correct_count` (typos included), `typo_count` and the
`details` entries keyed by the stringified enumeration index. -/
def clozeLoop (case_sensitive : Bool) (resp : PyVal) :
    Nat → List ClozeBlank → Except PyExc (Nat × Nat × List (String × DetailEntry))
  | _, [] => .ok (0, 0, [])
  | idx, blank :: rest => do
    let user_answer ← clozeReadAnswer resp idx
    let result := blankValidate blank user_answer case_sensitive
    let correct_ans := pyOrNone blank.correct_answer
    let (c, t, ds) ← clozeLoop case_sensitive resp (idx + 1) rest
    .ok ((if result = .correct ∨ result = .typo then c + 1 else c),
      (if result = .typo then t + 1 else t),
      (toString idx, ⟨result, user_answer, correct_ans⟩) :: ds)

/-- The feedback string of `ClozeQuestion.validate_answer`. -/
def clozeFeedback (correct_count total_blanks typo_count : Nat) : String :=
  if 0 < typo_count then
    "Got " ++ toString correct_count ++ " out of " ++ toString total_blanks ++
      " blanks correct (" ++ toString typo_count ++ " with minor typos)."
  else
    "Got " ++ toString correct_count ++ " out of " ++ toString total_blanks ++
      " blanks correct."

/-- `ClozeQuestion.validate_answer(user_response)`: iterate the blanks in
position order, classify each, and report
`(correct_count == total_blanks, feedback, details)`. -/
def clozeValidate (case_sensitive : Bool) (blanks : List ClozeBlank)
    (resp : PyVal) : Except PyExc (Bool × String × List (String × DetailEntry)) := do
  let sorted := sortByPos blanks
  let (correct_count, typo_count, details) ← clozeLoop case_sensitive resp 0 sorted
  .ok (correct_count == sorted.length,
    clozeFeedback correct_count sorted.length typo_count, details)

/-! ## Multiple-choice validation (models.py: MultipleChoiceQuestion) -/

/-- An MCQ option as used by grading: its identifier and is-correct flag
(a stored NULL flag is falsy exactly like False, so `Bool` suffices;
display fields play no role in validation). -/
structure MCQOption where
  id : Int
  is_correct : Bool
deriving DecidableEq, Repr

/-- `MultipleChoiceQuestion.validate_answer(user_response)`: coerce a
non-list to a one-element list, build the submitted set (TypeError on the
first unhashable element, as `set()` raises), and compare for set
equality with the set of ids of the options flagged correct.  Sets are
represented by their generating element lists: `pySetEq` is membership
equality (exactly `set(a) == set(b)`), and the feedback lengths use the
deduplicated lists (exactly `len(set(...))`). -/
def mcqValidate (comps : List MCQOption) (resp : PyVal) :
    Except PyExc (Bool × String) :=
  let lst := match resp with
    | .list xs => xs
    | v => [v]
  match lst.find? pyUnhashable with
  | some v => .error ⟨.typeError, "unhashable type: " ++ pyTypeName v⟩
  | Option.none =>
    let correct_ids := ((comps.filter (fun c => c.is_correct)).map (fun c => c.id)).dedup
    let is_correct := pySetEq lst (correct_ids.map PyVal.int)
    let feedback :=
      if is_correct then "Correct!"
      else "Incorrect. You selected " ++ toString (pyDedup lst).length ++
        " option(s), but " ++ toString correct_ids.length ++ " are correct."
    .ok (is_correct, feedback)

/-- The identifiers of the options flagged is-correct. -/
def mcqCorrectIds (comps : List MCQOption) : List Int :=
  (comps.filter (fun c => c.is_correct)).map (fun c => c.id)

/-! ## Word-match validation (models.py: WordMatchQuestion) -/

/-- A word pair; its words are irrelevant to grading (only the count of
stored pairs is read), but are carried for fidelity to the model. -/
structure WordMatchPair where
  left_word : Option String
  right_word : Option String
deriving DecidableEq, Repr

/-- Parse one `{left, right}` element of a word-match response:
`int(match.get('left', -1))` and `int(match.get('right', -1))`, where a
ValueError or TypeError skips the pair (`continue`), and a correct match
is recorded only when the parsed indices are equal and non-negative. -/
def wmParsePair (kvs : List (String × PyVal)) : Option Int :=
  match pyToInt (pyDictGetD kvs "left" (.int (-1))) with
  | .error _ => Option.none
  | .ok left_idx =>
    match pyToInt (pyDictGetD kvs "right" (.int (-1))) with
    | .error _ => Option.none
    | .ok right_idx =>
      if left_idx = right_idx ∧ 0 ≤ left_idx then some left_idx else Option.none

/-- The response loop of `WordMatchQuestion.validate_answer`: collect the
correctly matched left indices in order (duplicates included; the set is
taken afterwards).  A non-dict element raises AttributeError at
`match.get`, which the `except (ValueError, TypeError)` does not catch. -/
def wmCollect : List PyVal → Except PyExc (List Int)
  | [] => .ok []
  | m :: rest =>
    match m with
    | .dict kvs =>
      (wmCollect rest).map (fun tail =>
        match wmParsePair kvs with
        | some l => l :: tail
        | Option.none => tail)
    | v => .error ⟨.attributeError, pyTypeName v ++ " object has no attribute get"⟩

/-- `WordMatchQuestion.validate_answer(user_response)`: reject a
non-list outright with feedback, otherwise count the distinct correctly
matched left indices and compare with the number of stored pairs. -/
def wmValidate (pairs : List WordMatchPair) (resp : PyVal) :
    Except PyExc (Bool × String) :=
  match resp with
  | .list ms =>
    (wmCollect ms).map (fun lefts =>
      let correct_count := lefts.dedup.length
      let total_pairs := pairs.length
      (correct_count == total_pairs,
        "Got " ++ toString correct_count ++ " out of " ++ toString total_pairs ++
          " pairs correct."))
  | _ => .ok (false, "Invalid response format")

/-! ## Grading endpoint (routes/attempts.py: submit_question) -/

/-- A question as dispatched on polymorphically by the endpoint. -/
inductive Question where
  | mcq (comps : List MCQOption) : Question
  | cloze (case_sensitive : Bool) (blanks : List ClozeBlank) : Question
  | word_match (pairs : List WordMatchPair) : Question

/-- `question.validate_answer(response)` with the endpoint's unpacking of
2-tuple and 3-tuple results (`details = None` for the former). -/
def validateQuestion (q : Question) (resp : PyVal) :
    Except PyExc (Bool × String × Option (List (String × DetailEntry))) :=
  match q with
  | .mcq comps => (mcqValidate comps resp).map (fun r => (r.1, r.2, Option.none))
  | .cloze cs blanks => (clozeValidate cs blanks resp).map (fun r => (r.1, r.2.1, some r.2.2))
  | .word_match pairs => (wmValidate pairs resp).map (fun r => (r.1, r.2, Option.none))

/-- The grading step of `submit_question`: call `validate_answer` inside
`try`, degrade any exception to `was_correct = False` with an
"Error validating answer: ..." feedback, then advance the user's mastery
record with the resulting boolean.  Returns
`(was_correct, feedback, updated item)`. -/
def submitGrade (q : Question) (resp : PyVal) (today : Int) (item : UserItem) :
    Bool × String × UserItem :=
  match validateQuestion q resp with
  | .ok (was_correct, feedback, _) =>
    (was_correct, feedback, update_user_item_on_result today item was_correct)
  | .error e =>
    (false, "Error validating answer: " ++ e.msg,
      update_user_item_on_result today item false)

/-! ## Statement-side descriptions used by the theorems -/

/-- A response dict whose values are all strings, the shape a cloze
response is specified to have. -/
def strDict (kvs : List (String × String)) : PyVal :=
  .dict (kvs.map (fun p => (p.1, PyVal.str p.2)))

/-- First-match lookup in a string-to-string association list. -/
def lookupStr (kvs : List (String × String)) (k : String) : Option String :=
  (kvs.find? (fun p => p.1 == k)).map (fun p => p.2)

/-- The submitted answer a cloze blank at enumeration index `idx` is
graded against: the response value under the stringified index (empty
when the key is absent), whitespace-stripped. -/
def clozeUserAnswer (kvs : List (String × String)) (idx : Nat) : String :=
  pyStripWs ((lookupStr kvs (toString idx)).getD "")

/-- Pair each element of a list with its index, starting at `n`. -/
def withIdx {α : Type} : Nat → List α → List (Nat × α)
  | _, [] => []
  | n, a :: l => (n, a) :: withIdx (n + 1) l

/-- The details entry produced for one (index, blank) pair of a cloze
question graded against the string dict `kvs`. -/
def clozeEntry (case_sensitive : Bool) (kvs : List (String × String))
    (p : Nat × ClozeBlank) : String × DetailEntry :=
  (toString p.1,
    ⟨blankValidate p.2 (clozeUserAnswer kvs p.1) case_sensitive,
      clozeUserAnswer kvs p.1, pyOrNone p.2.correct_answer⟩)

/-- The full details list a cloze question produces: blanks in position
order, keyed by stringified enumeration index. -/
def clozeDetails (case_sensitive : Bool) (blanks : List ClozeBlank)
    (kvs : List (String × String)) : List (String × DetailEntry) :=
  (withIdx 0 (sortByPos blanks)).map (clozeEntry case_sensitive kvs)

end DrillBuilder

namespace DrillBuilder

/-- C1 (counterexample): the claim's transition fails on the record
(streak = 2, ease = 3, interval = 0).  On a correct outcome the code
computes `round((interval or 1) * ease) = 3` as the new interval, while
the claim's formula `max(1, round(interval * ease))` gives 1. -/
theorem C1_advance_counterexample :
    update_user_item_on_result 0 ⟨Option.none, 3, 0, 2⟩ true ≠
      specAdvance 0 ⟨Option.none, 3, 0, 2⟩ true ∧
    (update_user_item_on_result 0 ⟨Option.none, 3, 0, 2⟩ true).interval_days = 3 ∧
    (specAdvance 0 ⟨Option.none, 3, 0, 2⟩ true).interval_days = 1 := by
  have h3 : (update_user_item_on_result 0 ⟨Option.none, 3, 0, 2⟩ true).interval_days = 3 := by
    norm_num [update_user_item_on_result, calculate_new_interval, pyRoundHalfEven]
  have h1 : (specAdvance 0 ⟨Option.none, 3, 0, 2⟩ true).interval_days = 1 := by
    norm_num [specAdvance, pyRoundHalfEven]
  refine ⟨?_, h3, h1⟩
  intro h
  rw [congrArg UserItem.interval_days h, h1] at h3
  exact absurd h3 (by decide)

/-- C1 (amended): for every mastery record and boolean outcome the
scheduler performs the spec transition, with the previous interval taken
as 1 whenever the stored interval is 0 (the code's `interval_days or 1`):
on correct, streak+1, interval 1 / 6 / `max(1, round(prev * ease))`,
next review `today + interval`, ease unchanged; on incorrect, streak 0,
interval 1, next review `today + 1`, ease `max(1.3, ease - 0.1)`. -/
theorem C1_advance_amended (today : Int) (item : UserItem) (was_correct : Bool) :
    update_user_item_on_result today item was_correct =
      specAdvanceAmended today item was_correct := by
  cases was_correct <;>
    simp [update_user_item_on_result, specAdvanceAmended, calculate_new_interval]

/-- Supporting check: the embedded row dynamic program returns the
classic cost-1 insertion/deletion/substitution edit distance on a
battery of standard examples. -/
theorem levenshtein_distance_spot_checks :
    levenshtein_distance "kitten" "sitting" = 3 ∧
    levenshtein_distance "sitting" "kitten" = 3 ∧
    levenshtein_distance "" "" = 0 ∧
    levenshtein_distance "abc" "" = 3 ∧
    levenshtein_distance "" "abc" = 3 ∧
    levenshtein_distance "flaw" "lawn" = 2 ∧
    levenshtein_distance "ca" "cat" = 1 ∧
    levenshtein_distance "abc" "abc" = 0 ∧
    levenshtein_distance "book" "back" = 2 := by
  decide

/-- Helper: the boolean `_is_typo` test spelt as a proposition about the
whitespace-stripped, lowercased strings and their edit distance. -/
theorem is_typo_eq_true_iff (u c : String) :
    is_typo u c = true ↔
      (pyStripWs (lowerStr u) ≠ pyStripWs (lowerStr c) ∧
        (levenshtein_distance (pyStripWs (lowerStr u)) (pyStripWs (lowerStr c)) = 1 ∨
          (levenshtein_distance (pyStripWs (lowerStr u)) (pyStripWs (lowerStr c)) = 2 ∧
            5 < max (pyStripWs (lowerStr u)).length (pyStripWs (lowerStr c)).length))) := by
  unfold is_typo
  by_cases h : pyStripWs (lowerStr u) = pyStripWs (lowerStr c)
  · simp [h]
  · simp only [h, if_false, ite_false, ne_eq, not_false_iff, true_and,
      Bool.or_eq_true, Bool.and_eq_true, beq_iff_eq, decide_eq_true_eq]

/-- C3: the source declares and threads a `case_sensitive` flag but the
body of `ClozeBlank.validate_answer` never reads it, so lowercasing is
applied unconditionally: the blank with canonical answer "Cat" classifies
the submission "cat" as EXACT even with `case_sensitive = True`, and the
validation result is entirely independent of the flag. -/
theorem C3_case_sensitive_ignored :
    blankValidate ⟨0, some "Cat", Option.none⟩ "cat" true = BlankRes.correct ∧
    ∀ (blank : ClozeBlank) (ua : String) (c₁ c₂ : Bool),
      blankValidate blank ua c₁ = blankValidate blank ua c₂ :=
  ⟨by decide, fun _ _ _ _ => rfl⟩

/-- C5 (counterexample): the typo check does not strip punctuation.  For
the submission "ca!!" against canonical "cat" the normalized strings are
"ca" and "cat" — unequal, edit distance 1 — so the claim classifies TYPO,
but the code compares the unstripped "ca!!" with "cat" (distance 2,
length 4) and returns MISMATCH. -/
theorem C5_typo_counterexample :
    classify "ca!!" "cat" = BlankRes.incorrect ∧
    normalizeAnswer "ca!!" ≠ normalizeAnswer "cat" ∧
    normalizeAnswer "ca!!" ≠ "" ∧
    levenshtein_distance (normalizeAnswer "ca!!") (normalizeAnswer "cat") = 1 := by
  decide

/-- C5 (amended): for submissions whose full normalization is nonempty
and differs from the canonical normalization, the checker classifies
TYPO exactly when the *lowercased, whitespace-stripped* (not
punctuation-stripped) strings are unequal and their classic edit distance
is 1, or is 2 with the longer of the two over 5 characters; every other
such case is MISMATCH. -/
theorem C5_typo_amended (submitted canonical : String)
    (hc : canonical ≠ "")
    (hu : normalizeAnswer submitted ≠ "")
    (hne : normalizeAnswer submitted ≠ normalizeAnswer canonical) :
    (classify submitted canonical = BlankRes.typo ↔
      (pyStripWs (lowerStr submitted) ≠ pyStripWs (lowerStr canonical) ∧
        (levenshtein_distance (pyStripWs (lowerStr submitted))
            (pyStripWs (lowerStr canonical)) = 1 ∨
          (levenshtein_distance (pyStripWs (lowerStr submitted))
              (pyStripWs (lowerStr canonical)) = 2 ∧
            5 < max (pyStripWs (lowerStr submitted)).length
              (pyStripWs (lowerStr canonical)).length)))) ∧
    (classify submitted canonical = BlankRes.typo ∨
      classify submitted canonical = BlankRes.incorrect) := by
  have hcl : classify submitted canonical =
      if is_typo submitted canonical then BlankRes.typo else BlankRes.incorrect := by
    simp [classify, blankValidate, pyOrNone, altList, hc, hu, hne]
  rw [hcl]
  constructor
  · rw [← is_typo_eq_true_iff]
    by_cases h : is_typo submitted canonical <;> simp [h]
  · by_cases h : is_typo submitted canonical <;> simp [h]

/-- Witness for C5 (amended): "cet" against "cat" satisfies the
hypotheses and is classified TYPO (distance 1). -/
theorem C5_typo_amended_witness :
    ("cat" ≠ "" ∧ normalizeAnswer "cet" ≠ "" ∧
      normalizeAnswer "cet" ≠ normalizeAnswer "cat") ∧
    ((classify "cet" "cat" = BlankRes.typo ↔
      (pyStripWs (lowerStr "cet") ≠ pyStripWs (lowerStr "cat") ∧
        (levenshtein_distance (pyStripWs (lowerStr "cet"))
            (pyStripWs (lowerStr "cat")) = 1 ∨
          (levenshtein_distance (pyStripWs (lowerStr "cet"))
              (pyStripWs (lowerStr "cat")) = 2 ∧
            5 < max (pyStripWs (lowerStr "cet")).length
              (pyStripWs (lowerStr "cat")).length)))) ∧
    (classify "cet" "cat" = BlankRes.typo ∨
      classify "cet" "cat" = BlankRes.incorrect)) :=
  ⟨⟨by decide, by decide, by decide⟩,
    C5_typo_amended "cet" "cat" (by decide) (by decide) (by decide)⟩

/-- Helper: reading a blank's answer from a string-valued dict response
never raises and yields the stripped value under the stringified index
(empty when absent). -/
theorem clozeReadAnswer_strDict (kvs : List (String × String)) (idx : Nat) :
    clozeReadAnswer (strDict kvs) idx = .ok (clozeUserAnswer kvs idx) := by
  have hcomp : ((fun p => p.1 == toString idx) ∘
      (fun (p : String × String) => (p.1, PyVal.str p.2))) =
      (fun (p : String × String) => p.1 == toString idx) := by
    funext p; rfl
  simp only [clozeReadAnswer, strDict, pyDictGetD, clozeUserAnswer, lookupStr,
    List.find?_map, hcomp]
  cases h : kvs.find? (fun (p : String × String) => p.1 == toString idx) <;> simp [h]

/-- Helper: the loop of `ClozeQuestion.validate_answer` over a
string-valued dict response never raises; it returns the details entries
for the enumerated blanks together with their credited and typo counts. -/
theorem clozeLoop_strDict (case_sensitive : Bool) (kvs : List (String × String)) :
    ∀ (bls : List ClozeBlank) (idx : Nat),
    clozeLoop case_sensitive (strDict kvs) idx bls =
      .ok (((withIdx idx bls).map (clozeEntry case_sensitive kvs)).countP
            (fun d => !(d.2.result == BlankRes.incorrect)),
          ((withIdx idx bls).map (clozeEntry case_sensitive kvs)).countP
            (fun d => d.2.result == BlankRes.typo),
          (withIdx idx bls).map (clozeEntry case_sensitive kvs)) := by
  intro bls
  induction bls with
  | nil => intro idx; rfl
  | cons b rest ih =>
    intro idx
    simp only [clozeLoop, clozeReadAnswer_strDict, withIdx, List.map_cons,
      List.countP_cons, ih (idx + 1), bind, Except.bind]
    cases hR : blankValidate b (clozeUserAnswer kvs idx) case_sensitive <;>
      simp [clozeEntry, hR, Nat.add_comm]

/-- Helper: `sortByPos` preserves the number of blanks. -/
theorem sortByPos_length (blanks : List ClozeBlank) :
    (sortByPos blanks).length = blanks.length := by
  have hins : ∀ (x : ClozeBlank) (l : List ClozeBlank),
      (insertByPos x l).length = l.length + 1 := by
    intro x l
    induction l with
    | nil => rfl
    | cons y ys ihy =>
      simp only [insertByPos]
      split <;> simp [ihy]
  induction blanks with
  | nil => rfl
  | cons b rest ih => simp [sortByPos, hins, ih]

/-- Helper: `withIdx` preserves length. -/
theorem withIdx_length {α : Type} (n : Nat) (l : List α) :
    (withIdx n l).length = l.length := by
  induction l generalizing n with
  | nil => rfl
  | cons a as ih => simp [withIdx, ih]

/-- Helper: a blank validates the empty submission as MISMATCH
(the normalized empty string is falsy), for any flag value. -/
theorem blankValidate_empty (blank : ClozeBlank) (c : Bool) :
    blankValidate blank "" c = BlankRes.incorrect := by
  unfold blankValidate
  cases h : pyOrNone blank.correct_answer with
  | none => rfl
  | some s => simp [normalizeAnswer, pyStripChars, lowerStr]

/-- Helper: the credited count equals the list length exactly when every
entry is TYPO-or-better. -/
theorem countP_beq_all (ds : List (String × DetailEntry)) :
    (ds.countP (fun d => !(d.2.result == BlankRes.incorrect)) == ds.length) =
      ds.all (fun d => !(d.2.result == BlankRes.incorrect)) := by
  rcases h : ds.all (fun d => !(d.2.result == BlankRes.incorrect)) with _ | _
  · have hne : ds.countP (fun d => !(d.2.result == BlankRes.incorrect)) ≠ ds.length := by
      rw [Ne, List.countP_eq_length]
      intro hall
      rw [List.all_eq_false] at h
      obtain ⟨x, hx, hpx⟩ := h
      exact hpx (hall x hx)
    exact beq_false_of_ne hne
  · rw [List.all_eq_true] at h
    have : ds.countP (fun d => !(d.2.result == BlankRes.incorrect)) = ds.length :=
      List.countP_eq_length.mpr h
    simp [this]

/-- Helper: a list of integer identifiers contains nothing unhashable. -/
theorem find?_unhashable_int (ids : List Int) :
    (ids.map PyVal.int).find? pyUnhashable = Option.none := by
  rw [List.find?_map]
  have h : (pyUnhashable ∘ PyVal.int) = fun (_ : Int) => false := funext fun _ => rfl
  rw [h]
  simp [List.find?_eq_none]

/-- Helper: the word-match loop over a list of dict elements never
raises and collects exactly the parses of the elements in order. -/
theorem wmCollect_dicts (elems : List (List (String × PyVal))) :
    wmCollect (elems.map PyVal.dict) = .ok (elems.filterMap wmParsePair) := by
  induction elems with
  | nil => rfl
  | cons kvs rest ih =>
    simp only [List.map_cons, wmCollect, ih, List.filterMap_cons, Except.map]
    cases h : wmParsePair kvs <;> simp [h]

/-- Helper: the full result of grading a cloze question against a
string-valued dict response: no exception, details in enumeration order,
boolean true exactly when every entry is TYPO-or-better, feedback from
the credited and typo counts. -/
theorem clozeValidate_strDict_eq (case_sensitive : Bool) (blanks : List ClozeBlank)
    (kvs : List (String × String)) :
    clozeValidate case_sensitive blanks (strDict kvs) =
      .ok ((clozeDetails case_sensitive blanks kvs).all
            (fun d => !(d.2.result == BlankRes.incorrect)),
        clozeFeedback
          ((clozeDetails case_sensitive blanks kvs).countP
            (fun d => !(d.2.result == BlankRes.incorrect)))
          blanks.length
          ((clozeDetails case_sensitive blanks kvs).countP
            (fun d => d.2.result == BlankRes.typo)),
        clozeDetails case_sensitive blanks kvs) := by
  have hds : (withIdx 0 (sortByPos blanks)).map (clozeEntry case_sensitive kvs) =
      clozeDetails case_sensitive blanks kvs := rfl
  have hlen : (clozeDetails case_sensitive blanks kvs).length =
      (sortByPos blanks).length := by
    simp [clozeDetails, withIdx_length]
  simp only [clozeValidate, clozeLoop_strDict, bind, Except.bind, hds]
  rw [← hlen, countP_beq_all, hlen, sortByPos_length]

/-- Helper: the full result of grading an MCQ against a list of integer
identifiers: no exception, boolean by set equality with the flagged ids. -/
theorem mcqValidate_ints_eq (comps : List MCQOption) (ids : List Int) :
    mcqValidate comps (.list (ids.map PyVal.int)) =
      .ok (pySetEq (ids.map PyVal.int) ((mcqCorrectIds comps).dedup.map PyVal.int),
        if pySetEq (ids.map PyVal.int) ((mcqCorrectIds comps).dedup.map PyVal.int)
        then "Correct!"
        else "Incorrect. You selected " ++
          toString (pyDedup (ids.map PyVal.int)).length ++ " option(s), but " ++
          toString (mcqCorrectIds comps).dedup.length ++ " are correct.") := by
  simp only [mcqValidate, mcqCorrectIds, find?_unhashable_int]

/-- Helper: the full result of grading a word match against a list of
dict elements: no exception; the boolean compares the number of distinct
correctly matched left indices with the number of stored pairs. -/
theorem wmValidate_dicts_eq (pairs : List WordMatchPair)
    (elems : List (List (String × PyVal))) :
    wmValidate pairs (.list (elems.map PyVal.dict)) =
      .ok ((elems.filterMap wmParsePair).dedup.length == pairs.length,
        "Got " ++ toString (elems.filterMap wmParsePair).dedup.length ++
          " out of " ++ toString pairs.length ++ " pairs correct.") := by
  simp only [wmValidate, wmCollect_dicts, Except.map]

/-- C2 (counterexample): `validate_answer` itself can raise.  A cloze
question with one blank receives a list response: the code calls
`user_response.get(...)` and raises AttributeError.  An MCQ receiving a
list containing a list raises TypeError from `set()`. -/
theorem C2_crash_counterexample :
    clozeValidate false [⟨0, some "cat", Option.none⟩] (.list []) =
      .error ⟨.attributeError, "list object has no attribute get"⟩ ∧
    mcqValidate [] (.list [.list []]) =
      .error ⟨.typeError, "unhashable type: list"⟩ :=
  ⟨rfl, rfl⟩

/-- C2 (amended): `validate_answer` returns a well-formed result and
raises nothing for every response of the expected top-level shape — a
string-valued dict for cloze, a list of integer identifiers (or a single
integer) for multiple choice, a list of string-keyed dicts for word
match — and, for word match, for every non-list response (string, None,
int, bool, dict, each degrading to `is_correct = False` with feedback);
responses of the wrong top-level type to cloze or MCQ can raise (see the
counterexample), and the never-crash guarantee is provided by the submit
endpoint's catch-all instead. -/
theorem C2_wellformed_amended :
    (∀ (cs : Bool) (blanks : List ClozeBlank) (kvs : List (String × String)),
      ∃ r, clozeValidate cs blanks (strDict kvs) = .ok r) ∧
    (∀ (comps : List MCQOption) (ids : List Int),
      ∃ r, mcqValidate comps (.list (ids.map PyVal.int)) = .ok r) ∧
    (∀ (comps : List MCQOption) (i : Int),
      ∃ r, mcqValidate comps (PyVal.int i) = .ok r) ∧
    (∀ (pairs : List WordMatchPair) (elems : List (List (String × PyVal))),
      ∃ r, wmValidate pairs (.list (elems.map PyVal.dict)) = .ok r) ∧
    (∀ (pairs : List WordMatchPair) (s : String),
      wmValidate pairs (.str s) = .ok (false, "Invalid response format")) ∧
    (∀ (pairs : List WordMatchPair),
      wmValidate pairs PyVal.none = .ok (false, "Invalid response format")) ∧
    (∀ (pairs : List WordMatchPair) (n : Int),
      wmValidate pairs (.int n) = .ok (false, "Invalid response format")) ∧
    (∀ (pairs : List WordMatchPair) (b : Bool),
      wmValidate pairs (.bool b) = .ok (false, "Invalid response format")) ∧
    (∀ (pairs : List WordMatchPair) (kvs : List (String × PyVal)),
      wmValidate pairs (.dict kvs) = .ok (false, "Invalid response format")) := by
  refine ⟨?_, ?_, ?_, ?_, fun _ _ => rfl, fun _ => rfl, fun _ _ => rfl,
    fun _ _ => rfl, fun _ _ => rfl⟩
  · intro cs blanks kvs
    exact ⟨_, clozeValidate_strDict_eq cs blanks kvs⟩
  · intro comps ids
    exact ⟨_, mcqValidate_ints_eq comps ids⟩
  · intro comps i
    exact ⟨_, rfl⟩
  · intro pairs elems
    exact ⟨_, wmValidate_dicts_eq pairs elems⟩

/-- C4 (counterexample): an MCQ with zero answer components grades the
empty response as CORRECT (the empty submitted set equals the empty
correct set), not incorrect as the claim requires. -/
theorem C4_empty_counterexample :
    mcqValidate [] (.list []) = .ok (true, "Correct!") :=
  rfl

/-- C4 (amended): a question with zero answer components does not crash
on the empty response but reports `is_correct = True` (vacuous success),
not False: a cloze with no blanks accepts every response value, an MCQ
with no options accepts the empty list, and a word match with no pairs
accepts the empty list. -/
theorem C4_empty_amended :
    (∀ (cs : Bool) (resp : PyVal),
      clozeValidate cs [] resp = .ok (true, "Got 0 out of 0 blanks correct.", [])) ∧
    mcqValidate [] (.list []) = .ok (true, "Correct!") ∧
    wmValidate [] (.list []) = .ok (true, "Got 0 out of 0 pairs correct.") :=
  ⟨fun _ _ => rfl, rfl, rfl⟩

/-- C6: grading a cloze question against a string-valued dict response
iterates the blanks in position order; `details` records each blank's
three-way classification (with the stripped submission and the canonical
answer) keyed by the stringified enumeration index; the overall boolean
is true exactly when every blank is TYPO-or-better (EXACT and TYPO both
credit the correct count used in the feedback); and an index missing from
the response map is graded as the empty submission, which every blank
classifies MISMATCH. -/
theorem C6_cloze_aggregation (case_sensitive : Bool) (blanks : List ClozeBlank)
    (kvs : List (String × String)) :
    clozeValidate case_sensitive blanks (strDict kvs) =
      .ok ((clozeDetails case_sensitive blanks kvs).all
            (fun d => !(d.2.result == BlankRes.incorrect)),
        clozeFeedback
          ((clozeDetails case_sensitive blanks kvs).countP
            (fun d => !(d.2.result == BlankRes.incorrect)))
          blanks.length
          ((clozeDetails case_sensitive blanks kvs).countP
            (fun d => d.2.result == BlankRes.typo)),
        clozeDetails case_sensitive blanks kvs) ∧
    (∀ (blank : ClozeBlank) (c : Bool), blankValidate blank "" c = BlankRes.incorrect) ∧
    (∀ (idx : Nat), lookupStr kvs (toString idx) = Option.none →
      clozeUserAnswer kvs idx = "") := by
  refine ⟨clozeValidate_strDict_eq case_sensitive blanks kvs, blankValidate_empty, ?_⟩
  intro idx h
  simp [clozeUserAnswer, h, pyStripWs, pyStripChars]

/-- Witness for C6: a concrete cloze question with a blank missing from
the response map; the missing blank is graded MISMATCH and the overall
result is false. -/
theorem C6_cloze_aggregation_witness :
    (clozeValidate false [⟨0, some "cat", Option.none⟩, ⟨1, some "mat", Option.none⟩]
        (strDict [("0", "cat")]) =
      .ok ((clozeDetails false [⟨0, some "cat", Option.none⟩, ⟨1, some "mat", Option.none⟩]
              [("0", "cat")]).all (fun d => !(d.2.result == BlankRes.incorrect)),
        clozeFeedback
          ((clozeDetails false [⟨0, some "cat", Option.none⟩, ⟨1, some "mat", Option.none⟩]
              [("0", "cat")]).countP (fun d => !(d.2.result == BlankRes.incorrect)))
          2
          ((clozeDetails false [⟨0, some "cat", Option.none⟩, ⟨1, some "mat", Option.none⟩]
              [("0", "cat")]).countP (fun d => d.2.result == BlankRes.typo)),
        clozeDetails false [⟨0, some "cat", Option.none⟩, ⟨1, some "mat", Option.none⟩]
          [("0", "cat")])) ∧
    lookupStr [("0", "cat")] (toString 1) = Option.none ∧
    clozeUserAnswer [("0", "cat")] 1 = "" :=
  ⟨(C6_cloze_aggregation false
      [⟨0, some "cat", Option.none⟩, ⟨1, some "mat", Option.none⟩] [("0", "cat")]).1,
    by decide,
    (C6_cloze_aggregation false
      [⟨0, some "cat", Option.none⟩, ⟨1, some "mat", Option.none⟩] [("0", "cat")]).2.2
      1 (by decide)⟩

/-- Helper: a Python membership test of an integer among mapped integer
values is integer membership. -/
theorem any_pyEq_int (x : Int) (l : List Int) :
    ((l.map PyVal.int).any (fun y => pyEq (PyVal.int x) y) = true) ↔ x ∈ l := by
  induction l with
  | nil => simp
  | cons z zs ih =>
    have hz : pyEq (PyVal.int x) (PyVal.int z) = (x == z) := rfl
    simp [List.any_cons, hz, ih]

/-- Helper: one inclusion of Python set equality on mapped integers. -/
theorem all_mem_int (a b : List Int) :
    ((a.map PyVal.int).all
        (fun x => (b.map PyVal.int).any (fun y => pyEq x y)) = true) ↔
      ∀ x ∈ a, x ∈ b := by
  induction a with
  | nil => simp
  | cons z zs ih =>
    simp only [List.map_cons, List.all_cons, Bool.and_eq_true, ih, any_pyEq_int,
      List.forall_mem_cons]

/-- Helper: Python set equality of two integer-identifier lists holds
exactly when they contain the same integers. -/
theorem pySetEq_int_iff (a b : List Int) :
    pySetEq (a.map PyVal.int) (b.map PyVal.int) = true ↔
      (∀ x : Int, x ∈ a ↔ x ∈ b) := by
  unfold pySetEq
  rw [Bool.and_eq_true, all_mem_int, all_mem_int]
  constructor
  · rintro ⟨h1, h2⟩ x
    exact ⟨h1 x, h2 x⟩
  · intro h
    exact ⟨fun x hx => (h x).mp hx, fun y hy => (h y).mpr hy⟩

/-- C7: multiple-choice grading coerces a single identifier to a
one-element selection, and credits exactly set equality with the ids of
the options flagged correct — so any proper subset of the correct
options is never credited. -/
theorem C7_mcq_exact_set (comps : List MCQOption) :
    (∀ i : Int, mcqValidate comps (PyVal.int i) =
      mcqValidate comps (.list [PyVal.int i])) ∧
    (∀ ids : List Int, ∃ b fb,
      mcqValidate comps (.list (ids.map PyVal.int)) = .ok (b, fb) ∧
      (b = true ↔ (∀ x : Int, x ∈ ids ↔ x ∈ mcqCorrectIds comps))) ∧
    (∀ ids : List Int, (∀ x ∈ ids, x ∈ mcqCorrectIds comps) →
      (∃ y ∈ mcqCorrectIds comps, y ∉ ids) →
      ∃ fb, mcqValidate comps (.list (ids.map PyVal.int)) = .ok (false, fb)) := by
  have hiff : ∀ ids : List Int,
      (pySetEq (ids.map PyVal.int) ((mcqCorrectIds comps).dedup.map PyVal.int) = true ↔
        (∀ x : Int, x ∈ ids ↔ x ∈ mcqCorrectIds comps)) := by
    intro ids
    rw [pySetEq_int_iff]
    constructor
    · intro h x
      rw [h x, List.mem_dedup]
    · intro h x
      rw [h x, List.mem_dedup]
  refine ⟨fun i => rfl, ?_, ?_⟩
  · intro ids
    exact ⟨_, _, mcqValidate_ints_eq comps ids, hiff ids⟩
  · intro ids hsub hex
    obtain ⟨y, hy, hyn⟩ := hex
    have hB : pySetEq (ids.map PyVal.int)
        ((mcqCorrectIds comps).dedup.map PyVal.int) = false := by
      rcases hb : pySetEq (ids.map PyVal.int)
          ((mcqCorrectIds comps).dedup.map PyVal.int) with _ | _
      · rfl
      · exact absurd (((hiff ids).mp hb y).mpr hy) hyn
    refine ⟨"Incorrect. You selected " ++
      toString (pyDedup (ids.map PyVal.int)).length ++ " option(s), but " ++
      toString (mcqCorrectIds comps).dedup.length ++ " are correct.", ?_⟩
    rw [mcqValidate_ints_eq, hB]
    simp

/-- Witness for C7: options A(1, correct), B(2, correct), C(3): the
partial selection [1] is a proper subset of the correct set and is not
credited. -/
theorem C7_mcq_exact_set_witness :
    (∀ x ∈ [(1 : Int)], x ∈ mcqCorrectIds [⟨1, true⟩, ⟨2, true⟩, ⟨3, false⟩]) ∧
    (∃ y ∈ mcqCorrectIds [⟨1, true⟩, ⟨2, true⟩, ⟨3, false⟩], y ∉ [(1 : Int)]) ∧
    (∃ fb, mcqValidate [⟨1, true⟩, ⟨2, true⟩, ⟨3, false⟩]
        (.list ([(1 : Int)].map PyVal.int)) = .ok (false, fb)) :=
  ⟨by decide, ⟨2, by decide, by decide⟩,
    (C7_mcq_exact_set [⟨1, true⟩, ⟨2, true⟩, ⟨3, false⟩]).2.2 [1]
      (by decide) ⟨2, by decide, by decide⟩⟩

/-- C8: word-match grading of a list of dict elements parses each
element's left/right values with `int(...)` (non-parseable pairs are
skipped), a parsed pair is credited exactly when the indices are equal
and non-negative, the boolean compares the number of distinct credited
left indices with the number of stored pairs, and every non-list
response yields `is_correct = False` with explanatory feedback instead
of an exception. -/
theorem C8_word_match (pairs : List WordMatchPair) :
    (∀ elems : List (List (String × PyVal)),
      wmValidate pairs (.list (elems.map PyVal.dict)) =
        .ok ((elems.filterMap wmParsePair).dedup.length == pairs.length,
          "Got " ++ toString (elems.filterMap wmParsePair).dedup.length ++
            " out of " ++ toString pairs.length ++ " pairs correct.")) ∧
    (∀ (kvs : List (String × PyVal)) (l r : Int),
      pyToInt (pyDictGetD kvs "left" (.int (-1))) = .ok l →
      pyToInt (pyDictGetD kvs "right" (.int (-1))) = .ok r →
      wmParsePair kvs = if l = r ∧ 0 ≤ l then some l else Option.none) ∧
    (∀ s, wmValidate pairs (.str s) = .ok (false, "Invalid response format")) ∧
    (wmValidate pairs PyVal.none = .ok (false, "Invalid response format")) ∧
    (∀ n, wmValidate pairs (.int n) = .ok (false, "Invalid response format")) ∧
    (∀ b, wmValidate pairs (.bool b) = .ok (false, "Invalid response format")) ∧
    (∀ kvs, wmValidate pairs (.dict kvs) = .ok (false, "Invalid response format")) := by
  refine ⟨wmValidate_dicts_eq pairs, ?_, fun _ => rfl, rfl, fun _ => rfl,
    fun _ => rfl, fun _ => rfl⟩
  intro kvs l r hl hr
  unfold wmParsePair
  rw [hl, hr]

/-- Witness for C8: a pair submitted as strings "2"/"2" parses to equal
non-negative indices and is credited. -/
theorem C8_word_match_witness :
    pyToInt (pyDictGetD [("left", PyVal.str "2"), ("right", PyVal.str "2")]
      "left" (.int (-1))) = .ok 2 ∧
    pyToInt (pyDictGetD [("left", PyVal.str "2"), ("right", PyVal.str "2")]
      "right" (.int (-1))) = .ok 2 ∧
    wmParsePair [("left", PyVal.str "2"), ("right", PyVal.str "2")] =
      if (2 : Int) = 2 ∧ (0 : Int) ≤ 2 then some 2 else Option.none :=
  ⟨rfl, rfl,
    (C8_word_match []).2.1 [("left", PyVal.str "2"), ("right", PyVal.str "2")] 2 2
      rfl rfl⟩

/-- Helper: a dict pairing equal integer left/right values parses to a
credited match exactly when the value is non-negative. -/
theorem wmParsePair_int_pair (m : Int) :
    wmParsePair [("left", PyVal.int m), ("right", PyVal.int m)] =
      if 0 ≤ m then some m else Option.none := by
  have hL : pyDictGetD [("left", PyVal.int m), ("right", PyVal.int m)] "left"
      (.int (-1)) = PyVal.int m := rfl
  have hR : pyDictGetD [("left", PyVal.int m), ("right", PyVal.int m)] "right"
      (.int (-1)) = PyVal.int m := rfl
  unfold wmParsePair
  rw [hL, hR]
  simp [pyToInt]

/-- C9: word-match grading has no upper bound on submitted indices.  For
every question with at least one stored pair there is a response of as
many pairs using only indices at least the pair count (each with
left = right) that is graded fully correct, although no submitted index
refers to a stored pair. -/
theorem C9_wm_out_of_range (pairs : List WordMatchPair) (h : pairs ≠ []) :
    ∃ elems : List (List (String × PyVal)),
      elems.length = pairs.length ∧
      (∀ e ∈ elems, ∀ kv ∈ e, ∃ m : Int,
        kv.2 = PyVal.int m ∧ (pairs.length : Int) ≤ m) ∧
      wmValidate pairs (.list (elems.map PyVal.dict)) =
        .ok (true, "Got " ++ toString pairs.length ++ " out of " ++
          toString pairs.length ++ " pairs correct.") := by
  clear h
  refine ⟨(List.range pairs.length).map (fun i =>
    [("left", PyVal.int ((pairs.length + i : Nat) : Int)),
     ("right", PyVal.int ((pairs.length + i : Nat) : Int))]), ?_, ?_, ?_⟩
  · simp
  · intro e he kv hkv
    simp only [List.mem_map, List.mem_range] at he
    obtain ⟨i, hi, rfl⟩ := he
    refine ⟨((pairs.length + i : Nat) : Int), ?_, ?_⟩
    · simp only [List.mem_cons, List.not_mem_nil, or_false] at hkv
      rcases hkv with rfl | rfl
      · rfl
      · rfl
    · exact_mod_cast Nat.le_add_right pairs.length i
  · rw [wmValidate_dicts_eq]
    have hfm : ((List.range pairs.length).map (fun i =>
        [("left", PyVal.int ((pairs.length + i : Nat) : Int)),
         ("right", PyVal.int ((pairs.length + i : Nat) : Int))])).filterMap wmParsePair =
        (List.range pairs.length).map (fun i => ((pairs.length + i : Nat) : Int)) := by
      rw [List.filterMap_map]
      rw [show ((wmParsePair ∘ fun i =>
          [("left", PyVal.int ((pairs.length + i : Nat) : Int)),
           ("right", PyVal.int ((pairs.length + i : Nat) : Int))]) =
          fun i => some ((pairs.length + i : Nat) : Int)) from ?_]
      · exact List.filterMap_eq_map _ ▸ congrFun (List.filterMap_eq_map _) _
      · funext i
        rw [Function.comp_apply, wmParsePair_int_pair]
        exact if_pos (Int.ofNat_nonneg _)
    have hnodup : ((List.range pairs.length).map
        (fun i => ((pairs.length + i : Nat) : Int))).Nodup := by
      refine List.Nodup.map ?_ (List.nodup_range pairs.length)
      intro a b hab
      simp only [Nat.cast_inj] at hab
      omega
    rw [hfm, List.dedup_eq_self.mpr hnodup]
    simp

/-- Witness for C9: a one-pair question graded fully correct by a
response whose only index is 1 (equal to the pair count, out of range). -/
theorem C9_wm_out_of_range_witness :
    ([⟨some "hello", some "hola"⟩] : List WordMatchPair) ≠ [] ∧
    (∃ elems : List (List (String × PyVal)),
      elems.length = ([⟨some "hello", some "hola"⟩] : List WordMatchPair).length ∧
      (∀ e ∈ elems, ∀ kv ∈ e, ∃ m : Int,
        kv.2 = PyVal.int m ∧
          (([⟨some "hello", some "hola"⟩] : List WordMatchPair).length : Int) ≤ m) ∧
      wmValidate [⟨some "hello", some "hola"⟩] (.list (elems.map PyVal.dict)) =
        .ok (true, "Got " ++
          toString ([⟨some "hello", some "hola"⟩] : List WordMatchPair).length ++
          " out of " ++
          toString ([⟨some "hello", some "hola"⟩] : List WordMatchPair).length ++
          " pairs correct.")) :=
  ⟨by simp, C9_wm_out_of_range [⟨some "hello", some "hola"⟩] (by simp)⟩

/-- C10: the submit-question endpoint wraps validation in a catch-all:
whenever `validate_answer` raises, grading degrades to
`was_correct = False` with feedback "Error validating answer: ..." and no
exception reaches the caller, and the user's mastery record is still
advanced with the incorrect outcome (streak reset to 0, interval 1). -/
theorem C10_endpoint_catchall (q : Question) (resp : PyVal) (today : Int)
    (item : UserItem) (e : PyExc) (h : validateQuestion q resp = .error e) :
    submitGrade q resp today item =
      (false, "Error validating answer: " ++ e.msg,
        update_user_item_on_result today item false) ∧
    (update_user_item_on_result today item false).success_streak = 0 ∧
    (update_user_item_on_result today item false).interval_days = 1 := by
  refine ⟨?_, ?_, ?_⟩
  · simp [submitGrade, h]
  · simp [update_user_item_on_result]
  · simp [update_user_item_on_result]

/-- Witness for C10: the cloze question of the C2 crash scenario, graded
through the endpoint: the AttributeError is caught and the record is
advanced as incorrect. -/
theorem C10_endpoint_catchall_witness :
    validateQuestion (.cloze false [⟨0, some "cat", Option.none⟩]) (.list []) =
      .error ⟨.attributeError, "list object has no attribute get"⟩ ∧
    (submitGrade (.cloze false [⟨0, some "cat", Option.none⟩]) (.list []) 0
        ⟨Option.none, 1, 0, 0⟩ =
      (false, "Error validating answer: " ++ "list object has no attribute get",
        update_user_item_on_result 0 ⟨Option.none, 1, 0, 0⟩ false) ∧
      (update_user_item_on_result 0 ⟨Option.none, 1, 0, 0⟩ false).success_streak = 0 ∧
      (update_user_item_on_result 0 ⟨Option.none, 1, 0, 0⟩ false).interval_days = 1) :=
  ⟨rfl,
    C10_endpoint_catchall (.cloze false [⟨0, some "cat", Option.none⟩]) (.list []) 0
      ⟨Option.none, 1, 0, 0⟩ ⟨.attributeError, "list object has no attribute get"⟩ rfl⟩

end DrillBuilder
